import Mathlib

/-!
Verification of the checklist-to-domain parser in `generate_reports.py`.

The parsing core is embedded shallowly: strings are lists of characters,
each regular expression of the source is translated into an explicit
matcher over character lists (with the same greedy/backtracking order the
Python `re` module uses on that pattern), and the line-by-line parser is a
fold over the document's lines.  Character classes (`\d`, `\s`, `\w`) and
`str.strip`/`str.lower` are modelled over ASCII; the numeric conversions
`int(float(...) * mult)` are modelled by exact IEEE-754 binary64
arithmetic — correctly rounded decimal parsing (ties to even, subnormals,
overflow to infinity), a correctly rounded product, and truncation that
fails on infinity exactly where Python raises OverflowError.
-/

set_option maxRecDepth 8192

namespace MomotaroTrip

/-- Strings are modelled as lists of characters. -/
abbrev Str := List Char

/-! ### Character classes (ASCII fragments of the Python regex classes) -/

/-- Class `\d`. -/
def isDigitC (c : Char) : Bool := c.isDigit

/-- Class `\s`. -/
def isSpaceC (c : Char) : Bool :=
  c = ' ' || c = '\t' || c = '\n' || c = '\x0d' || c = '\x0b' || c = '\x0c'

/-- Class `\w`. -/
def isWordC (c : Char) : Bool := c.isAlpha || c.isDigit || c = '_'

/-! ### Basic string operations -/

/-- `pat` is a leading segment of `s` (Python `str.startswith`). -/
def leadsWith : Str → Str → Bool
  | [], _ => true
  | _ :: _, [] => false
  | p :: ps, c :: cs => p = c && leadsWith ps cs

/-- `pat` occurs somewhere in `s` (Python `pat in s`). -/
def containsSub (pat : Str) : Str → Bool
  | [] => leadsWith pat []
  | s@(_ :: cs) => leadsWith pat s || containsSub pat cs

/-- Python `str.strip()` (ASCII whitespace). -/
def trimStr (s : Str) : Str :=
  ((s.dropWhile isSpaceC).reverse.dropWhile isSpaceC).reverse

/-- Python `str.replace(pat, repl)`: all non-overlapping occurrences, left
to right.  The counter argument skips the tail of an already replaced
occurrence, which keeps the recursion structural. -/
def replaceStrAux (pat repl : Str) : Str → Nat → Str
  | [], _ => []
  | _ :: cs, k + 1 => replaceStrAux pat repl cs k
  | c :: cs, 0 =>
    if leadsWith pat (c :: cs) && pat.length != 0 then
      repl ++ replaceStrAux pat repl cs (pat.length - 1)
    else
      c :: replaceStrAux pat repl cs 0

/-- Python `str.replace(pat, repl)`. -/
def replaceStr (pat repl s : Str) : Str := replaceStrAux pat repl s 0

/-- Digits of a numeral, most significant first, as a number. -/
def natOfDigits (l : Str) : Nat := l.foldl (fun n c => n * 10 + (c.toNat - 48)) 0

/-- `(s.drop start).take len`, the slice `s[start : start+len]`. -/
def sliceStr (s : Str) (start len : Nat) : Str := (s.drop start).take len

/-! ### Generic scanning combinators (the `re` operations used by the source)

Every pattern matcher below has type `Str → Option (Nat × β)` or
`Str → Option Nat`: applied to a suffix of the text it reports how many
characters a match starting exactly there consumes (`re`'s leftmost
convention is obtained by trying successive suffixes).  None of the
source's patterns can match the empty string, which the scanners rely on
for structural termination (via a skip counter). -/

/-- `re.search`: leftmost match; returns the start index and the
matcher's result. -/
def searchAt {β : Type} (m : Str → Option β) : Str → Nat → Option (Nat × β)
  | [], i => match m [] with
    | some b => some (i, b)
    | none => none
  | s@(_ :: cs), i => match m s with
    | some b => some (i, b)
    | none => searchAt m cs (i + 1)

/-- `re.finditer`: all non-overlapping matches, left to right, as
`(start, length, payload)` triples. -/
def findAllAux {β : Type} (m : Str → Option (Nat × β)) : Str → Nat → Nat → List (Nat × Nat × β)
  | [], _, _ => []
  | _ :: cs, i, k + 1 => findAllAux m cs (i + 1) k
  | s@(_ :: cs), i, 0 =>
    match m s with
    | some (n, b) => (i, n, b) :: findAllAux m cs (i + 1) (n - 1)
    | none => findAllAux m cs (i + 1) 0

/-- `re.finditer`, from the start of the text. -/
def findAll {β : Type} (m : Str → Option (Nat × β)) (s : Str) : List (Nat × Nat × β) :=
  findAllAux m s 0 0

/-- `re.sub(pattern, repl, s)`: every non-overlapping match replaced. -/
def gsubAux (m : Str → Option Nat) (repl : Str) : Str → Nat → Str
  | [], _ => []
  | _ :: cs, k + 1 => gsubAux m repl cs k
  | c :: cs, 0 =>
    match m (c :: cs) with
    | some n => repl ++ gsubAux m repl cs (n - 1)
    | none => c :: gsubAux m repl cs 0

/-- `re.sub(pattern, repl, s)`. -/
def gsub (m : Str → Option Nat) (repl : Str) (s : Str) : Str := gsubAux m repl s 0

/-- `re.sub(r'\s+', ' ', s)`. -/
def collapseWs (s : Str) : Str :=
  gsub (fun t => let n := (t.takeWhile isSpaceC).length; if n = 0 then none else some n)
    [' '] s

/-! ### `extract_price` (source lines 24-56)

Patterns, in priority order:
  `(\d+[,\.]?\d*)\s*jt\b`  (IGNORECASE, one million multiplier),
  `(\d+[,\.]?\d*)\s*rb\b`  (IGNORECASE, one thousand multiplier),
  `(\d{1,3}(?:\.\d{3})+(?:,\d+)?)` (grouped long number).
For these patterns greedy matching without backtracking agrees with
Python's backtracking search: every repetition is a run of digits whose
shortening leaves a digit in front of a sub-pattern that cannot consume a
digit. -/

/-- The capture `(\d+[,\.]?\d*)`: digits, an optional single `,`/`.`
separator, more digits.  Returns the captured characters and the length
consumed. -/
def matchNumGroup (s : Str) : Option (Str × Nat) :=
  let d1 := s.takeWhile isDigitC
  if d1.length = 0 then none
  else
    match s.drop d1.length with
    | c :: rest =>
      if c = ',' || c = '.' then
        let d2 := rest.takeWhile isDigitC
        some (d1 ++ c :: d2, d1.length + 1 + d2.length)
      else some (d1, d1.length)
    | [] => some (d1, d1.length)

/-- `(\d+[,\.]?\d*)\s*ab\b` with case-insensitive letters `a`, `b`;
returns consumed length and the captured numeral. -/
def matchMult (a b : Char) (s : Str) : Option (Nat × Str) :=
  match matchNumGroup s with
  | none => none
  | some (g, n) =>
    let rest := s.drop n
    let ws := (rest.takeWhile isSpaceC).length
    match rest.drop ws with
    | c1 :: c2 :: r =>
      if c1.toLower = a && c2.toLower = b
          && (match r with | [] => true | d :: _ => !isWordC d) then
        some (n + ws + 2, g)
      else none
    | _ => none

/-- Length consumed by `(?:\.\d{3})+` matched greedily (0 when no
iteration applies). -/
def dotGroupsLen : Str → Nat
  | '.' :: a :: b :: c :: rest =>
    if isDigitC a && isDigitC b && isDigitC c then 4 + dotGroupsLen rest else 0
  | _ => 0

/-- `(\d{1,3}(?:\.\d{3})+(?:,\d+)?)`: grouped long number; returns
consumed length and the captured text. -/
def matchLong (s : Str) : Option (Nat × Str) :=
  let d1 := (s.takeWhile isDigitC).take 3
  if d1.length = 0 then none
  else
    let r1 := s.drop d1.length
    let k := dotGroupsLen r1
    if k = 0 then none
    else
      let dec :=
        match r1.drop k with
        | ',' :: t =>
          let ds := (t.takeWhile isDigitC).length
          if ds = 0 then 0 else 1 + ds
        | _ => 0
      some (d1.length + k + dec, s.take (d1.length + k + dec))

/-! ### IEEE-754 binary64 arithmetic (the numeric path of the source)

The converters of `extract_price` compute `int(float(s) * mult)` and
`int(float(s))`.  `float(s)` is CPython's correctly rounded decimal
parse (nearest binary64, ties to even, subnormal range, overflow to
infinity); the product with the exactly representable multiplier is a
correctly rounded IEEE multiplication; `int(x)` truncates a finite value
toward zero and raises OverflowError on infinity — modelled as `none`,
which makes the source's `except` branch fall through to the next
pattern family. -/

/-- A nonnegative binary64 value: a finite dyadic `m * 2 ^ e`, or
infinity. -/
inductive PyFloat where
  | finite (m : Nat) (e : Int)
  | inf
deriving DecidableEq

/-- `floor (log2 n)` for `n ≥ 1`, with a fuel argument (any bound on the
iteration count; call sites pass `n` itself) keeping the recursion
structural so that the kernel can evaluate it. -/
def log2Fuel : Nat → Nat → Nat
  | 0, _ => 0
  | f + 1, n => if n ≤ 1 then 0 else log2Fuel f (n / 2) + 1

/-- `floor (log2 n)` for `n ≥ 1`. -/
def natLog2 (n : Nat) : Nat := log2Fuel n n

/-- `2 ^ e * b ≤ a`, with a signed exponent. -/
def pow2MulLe (e : Int) (b a : Nat) : Bool :=
  if 0 ≤ e then b * 2 ^ e.toNat ≤ a else b ≤ a * 2 ^ (-e).toNat

/-- Round `N / D` (with `D ≥ 1`) to the nearest integer, ties to
even. -/
def divRoundEven (N D : Nat) : Nat :=
  let q := N / D
  let r := N % D
  if 2 * r < D then q
  else if D < 2 * r then q + 1
  else if q % 2 = 0 then q else q + 1

/-- Round the rational `a / b` (with `b ≥ 1`) to the nearest binary64
value: the unit in the last place is `2 ^ (e - 52)` for a value in
`[2 ^ e, 2 ^ (e+1))`, clamped at `2 ^ (-1074)` in the subnormal range;
a rounded magnitude of `2 ^ 1024` or more becomes infinity.  The
construction of `e` gives `2 ^ 52 ≤ a / (b * 2 ^ u) < 2 ^ 53` in the
normal range (and less in the subnormal range), so `n ≤ 2 ^ 53`;
overflow (`n * 2 ^ u ≥ 2 ^ 1024`) is therefore impossible for `u ≤ 970`,
certain for `u ≥ 1024`, and otherwise equivalent to
`n ≥ 2 ^ (1024 - u)` — stated that way to keep every computed
exponent small. -/
def roundRat (a b : Nat) : PyFloat :=
  if a = 0 then .finite 0 0
  else
    let e0 : Int := (natLog2 a : Int) - (natLog2 b : Int)
    let e : Int := if pow2MulLe e0 b a then e0 else e0 - 1
    let u : Int := max (e - 52) (-1074)
    let n : Nat :=
      if 0 ≤ u then divRoundEven a (b * 2 ^ u.toNat)
      else divRoundEven (a * 2 ^ (-u).toNat) b
    if 971 ≤ u ∧ (1024 ≤ u ∨ 2 ^ (1024 - u.toNat) ≤ n) then .inf
    else .finite n u

/-- `float(s)` for the nonnegative decimal numeral with integer digits
`ip` and fraction digits `fp`. -/
def pyFloatOfDec (ip fp : Str) : PyFloat :=
  roundRat (natOfDigits (ip ++ fp)) (10 ^ fp.length)

/-- Multiplication of a binary64 value by an exactly representable
natural multiplier: the exact product, rounded back to binary64. -/
def pyMulNat : PyFloat → Nat → PyFloat
  | .inf, _ => .inf
  | .finite m e, k =>
    if 0 ≤ e then roundRat (m * k * 2 ^ e.toNat) 1
    else roundRat (m * k) (2 ^ (-e).toNat)

/-- `int(x)` on a nonnegative binary64 value: truncation toward zero, or
Python's OverflowError (`none`) on infinity. -/
def pyTrunc : PyFloat → Option Nat
  | .inf => none
  | .finite m e => some (if 0 ≤ e then m * 2 ^ e.toNat else m / 2 ^ (-e).toNat)

/-- `int(float(g.replace(',', '.')) * mult)` for a captured
`(\d+[,\.]?\d*)` numeral; `none` is Python's OverflowError. -/
def convertDecimal (g : Str) (mult : Nat) : Option Nat :=
  let d1 := g.takeWhile isDigitC
  let frac := (g.drop d1.length).drop 1
  pyTrunc (pyMulNat (pyFloatOfDec d1 frac) mult)

/-- `int(float(g.replace('.', '').replace(',', '.')))` for a captured
grouped long number; `none` is Python's OverflowError. -/
def convertLong (g : Str) : Option Nat :=
  let nd := g.filter (fun c => c ≠ '.')
  let ip := nd.takeWhile (fun c => c ≠ ',')
  let fp := (nd.drop ip.length).drop 1
  pyTrunc (pyFloatOfDec ip fp)

/-- One suffix-pattern family of the loop of lines 38-44: leftmost
match, then conversion.  `none` both when the pattern does not match and
when the conversion of the matched numeral overflows — the
`except: continue` path moves on to the next family either way (the
search is not retried at a later match of the same family). -/
def priceFamily (a b : Char) (mult : Nat) (text : Str) : Option Nat :=
  match searchAt (matchMult a b) text 0 with
  | some (_, _, g) => convertDecimal g mult
  | none => none

/-- The grouped-long-number fallback of lines 46-54; a conversion
overflow hits `except: pass` and the function returns `None`. -/
def priceLongFamily (text : Str) : Option Nat :=
  match searchAt matchLong text 0 with
  | some (_, _, g) => convertLong g
  | none => none

/-- `extract_price` (lines 24-56): the first pattern family that yields
a successful conversion wins. -/
def extract_price (text : Str) : Option Nat :=
  match priceFamily 'j' 't' 1000000 text with
  | some v => some v
  | none =>
    match priceFamily 'r' 'b' 1000 text with
    | some v => some v
    | none => priceLongFamily text

/-! ### Item-name sanitization (source lines 59-96) -/

/-- `\s*\d+[,\.]?\d*\s*jt\b` / `...rb\b` as a removal pattern (leading
whitespace included). -/
def matchWsMult (a b : Char) (s : Str) : Option Nat :=
  let ws := (s.takeWhile isSpaceC).length
  match matchMult a b (s.drop ws) with
  | some (n, _) => some (ws + n)
  | none => none

/-- `\s*\d{1,3}(?:\.\d{3})+(?:,\d+)?` as a removal pattern. -/
def matchWsLong (s : Str) : Option Nat :=
  let ws := (s.takeWhile isSpaceC).length
  match matchLong (s.drop ws) with
  | some (n, _) => some (ws + n)
  | none => none

/-- `remove_price_from_item_name` (lines 59-75): the three price patterns
are removed in order, stripping after each. -/
def remove_price_from_item_name (text : Str) : Str :=
  let r1 := trimStr (gsub (matchWsMult 'j' 't') [] text)
  let r2 := trimStr (gsub (matchWsMult 'r' 'b') [] r1)
  trimStr (gsub matchWsLong [] r2)

/-- `\s+\([^)]*\)\s*$`: a space-preceded parenthetical group at the very
end of the string (trailing whitespace absorbed). -/
def matchTrailParen (s : Str) : Option Nat :=
  let ws := (s.takeWhile isSpaceC).length
  if ws = 0 then none
  else
    match s.drop ws with
    | '(' :: r =>
      let inner := (r.takeWhile (fun c => c ≠ ')')).length
      match r.drop inner with
      | ')' :: r2 => if r2.all isSpaceC then some (ws + 1 + inner + 1 + r2.length) else none
      | _ => none
    | _ => none

/-- `remove_notes_from_item_name` (lines 78-96). -/
def remove_notes_from_item_name (text : Str) : Str :=
  trimStr (gsub matchTrailParen [] text)

/-- The item-name sanitization pipeline as used at lines 301-303: price
removal, then trailing-note removal. -/
def sanitize_item_name (line : Str) : Str :=
  remove_notes_from_item_name (remove_price_from_item_name line)

/-! ### Customer-field extraction (source lines 99-149) -/

/-- `\(\+\s*(\d+)\s*\w*\)`: quantity override token; returns consumed
length and the captured digits. -/
def matchQty (s : Str) : Option (Nat × Str) :=
  match s with
  | '(' :: '+' :: r1 =>
    let w1 := (r1.takeWhile isSpaceC).length
    let r2 := r1.drop w1
    let ds := r2.takeWhile isDigitC
    if ds.length = 0 then none
    else
      let r3 := r2.drop ds.length
      let w2 := (r3.takeWhile isSpaceC).length
      let r4 := r3.drop w2
      let wd := (r4.takeWhile isWordC).length
      match r4.drop wd with
      | ')' :: _ => some (2 + w1 + ds.length + w2 + wd + 1, ds)
      | _ => none
  | _ => none

/-- `extract_quantity_from_customer_name` (lines 99-117): search for the
quantity token; when found, remove every occurrence and strip. -/
def extract_quantity_from_customer_name (text : Str) : Option Nat × Str :=
  match searchAt matchQty text 0 with
  | some (_, _, ds) =>
    (some (natOfDigits ds), trimStr (gsub (fun s => (matchQty s).map (·.1)) [] text))
  | none => (none, text)

/-- `\(([^)]+)\)`: a non-empty parenthetical group; returns consumed
length and the group's content. -/
def matchParen (s : Str) : Option (Nat × Str) :=
  match s with
  | '(' :: r =>
    let inner := r.takeWhile (fun c => c ≠ ')')
    if inner.length = 0 then none
    else
      match r.drop inner.length with
      | ')' :: _ => some (inner.length + 2, inner)
      | _ => none
  | _ => none

/-- `re.match(r'^\+\s*\d+', content)`: content shaped like a quantity
override. -/
def isQtyNote (s : Str) : Bool :=
  match s with
  | '+' :: r => ((r.dropWhile isSpaceC).takeWhile isDigitC).length ≠ 0
  | _ => false

/-- Rightmost-to-leftmost scan of the parenthetical groups of `text` for
the first one that is not quantity-shaped (lines 134-147). -/
def pickNote (text : Str) : List (Nat × Nat × Str) → Option (Str × Str)
  | [] => none
  | (st, ln, inner) :: rest =>
    let content := trimStr inner
    if isQtyNote content then pickNote text rest
    else
      let before := trimStr (text.take st)
      let after := trimStr (text.drop (st + ln))
      let cleaned := trimStr (collapseWs (trimStr (before ++ ' ' :: after)))
      some ('(' :: content ++ [')'], cleaned)

/-- `extract_notes_from_customer_name` (lines 120-149). -/
def extract_notes_from_customer_name (text : Str) : Option Str × Str :=
  match pickNote text (findAll matchParen text).reverse with
  | some (notes, cleaned) => (some notes, cleaned)
  | none => (none, text)

/-! ### The trailing-"ok" cleanup block (source lines 359-366) -/

/-- `\s+ok\s*\(` (IGNORECASE). -/
def matchOkParen (s : Str) : Option Nat :=
  let w1 := (s.takeWhile isSpaceC).length
  if w1 = 0 then none
  else
    match s.drop w1 with
    | c1 :: c2 :: r =>
      if c1.toLower = 'o' && c2.toLower = 'k' then
        let w2 := (r.takeWhile isSpaceC).length
        match r.drop w2 with
        | '(' :: _ => some (w1 + 2 + w2 + 1)
        | _ => none
      else none
    | _ => none

/-- `\s*\([^)]*\)\s*ok\s*$` (IGNORECASE). -/
def matchParenOkEnd (s : Str) : Option Nat :=
  let w1 := (s.takeWhile isSpaceC).length
  match s.drop w1 with
  | '(' :: r =>
    let inner := (r.takeWhile (fun c => c ≠ ')')).length
    match r.drop inner with
    | ')' :: r2 =>
      let w2 := (r2.takeWhile isSpaceC).length
      match r2.drop w2 with
      | c1 :: c2 :: r3 =>
        if c1.toLower = 'o' && c2.toLower = 'k' && r3.all isSpaceC then
          some (w1 + 1 + inner + 1 + w2 + 2 + r3.length)
        else none
      | _ => none
    | _ => none
  | _ => none

/-- `\s*\([^)]*\)ok\s*$` (IGNORECASE, no space between `)` and `ok`). -/
def matchParenOkGlued (s : Str) : Option Nat :=
  let w1 := (s.takeWhile isSpaceC).length
  match s.drop w1 with
  | '(' :: r =>
    let inner := (r.takeWhile (fun c => c ≠ ')')).length
    match r.drop inner with
    | ')' :: c1 :: c2 :: r3 =>
      if c1.toLower = 'o' && c2.toLower = 'k' && r3.all isSpaceC then
        some (w1 + 1 + inner + 1 + 2 + r3.length)
      else none
    | _ => none
  | _ => none

/-- `\s*\([^)]*\)\s*$`. -/
def matchParenEnd (s : Str) : Option Nat :=
  let w1 := (s.takeWhile isSpaceC).length
  match s.drop w1 with
  | '(' :: r =>
    let inner := (r.takeWhile (fun c => c ≠ ')')).length
    match r.drop inner with
    | ')' :: r2 => if r2.all isSpaceC then some (w1 + 1 + inner + 1 + r2.length) else none
    | _ => none
  | _ => none

/-- `\s+ok\s*$` (IGNORECASE). -/
def matchOkEnd (s : Str) : Option Nat :=
  let w1 := (s.takeWhile isSpaceC).length
  if w1 = 0 then none
  else
    match s.drop w1 with
    | c1 :: c2 :: r3 =>
      if c1.toLower = 'o' && c2.toLower = 'k' && r3.all isSpaceC then
        some (w1 + 2 + r3.length)
      else none
    | _ => none

/-- The ordered `re.sub` cascade of lines 359-366 (each step followed by
`strip`, ending with whitespace collapsing). -/
def cleanupOk (t : Str) : Str :=
  let t1 := trimStr (gsub matchOkParen " (".data t)
  let t2 := trimStr (gsub matchParenOkEnd [] t1)
  let t3 := trimStr (gsub matchParenOkGlued [] t2)
  let t4 := trimStr (gsub matchParenEnd [] t3)
  let t5 := trimStr (gsub matchOkEnd [] t4)
  trimStr (collapseWs t5)

/-! ### `normalize_unicode` (source lines 152-208)

The source applies a chain of single-character `str.replace` calls whose
source characters are pairwise distinct non-ASCII characters and whose
replacement characters (`' '`, `'-'`) are ASCII, so the chain is the
per-character map below applied once across the string. -/

/-- Unicode space variants replaced by an ASCII space (lines 161-175,
193-194). -/
def spaceSources : Str :=
  ['\u2009', '\u200A', '\u202F', '\u00A0', '\u2000', '\u2001', '\u2002', '\u2003',
   '\u2004', '\u2005', '\u2006', '\u2007', '\u2008', '\u2028', '\u2029']

/-- Zero-width and bidirectional-control characters removed (lines
178-192). -/
def removedSources : Str :=
  ['\u200B', '\u200C', '\u200D', '\uFEFF', '\u202A', '\u202B', '\u202C', '\u202D',
   '\u202E', '\u2066', '\u2067', '\u2068', '\u2069', '\u200E', '\u200F']

/-- Unicode dash variants replaced by an ASCII hyphen (lines 197-206). -/
def dashSources : Str :=
  ['\u2011', '\u2012', '\u2013', '\u2014', '\u2015', '\u2212', '\uFE63', '\uFF0D',
   '\u00AD', '\u2010']

/-- The per-character action of `normalize_unicode`. -/
def normChar (c : Char) : Option Char :=
  if spaceSources.contains c then some ' '
  else if removedSources.contains c then none
  else if dashSources.contains c then some '-'
  else some c

/-- `normalize_unicode` (lines 152-208). -/
def normalize_unicode (text : Str) : Str := text.filterMap normChar

/-! ### Phone normalization and identity keys (source lines 211-247) -/

/-- `normalize_phone` (lines 211-225): the comparison-only canonical
form. -/
def normalize_phone : Option Str → Option Str
  | none => none
  | some p =>
    if p.length = 0 then none
    else
      let pc := p.filter (fun c => isDigitC c || c = '+')
      let pc' :=
        if leadsWith "+62".data pc then replaceStr "+62".data "0".data pc
        else if leadsWith "62".data pc then '0' :: pc.drop 2
        else pc
      if leadsWith "0".data pc' then some pc' else some ('0' :: pc')

/-- `normalize_customer_name` (lines 228-232): strip and lowercase. -/
def normalize_customer_name (name : Str) : Str :=
  (trimStr name).map Char.toLower

/-- `get_customer_key` (lines 235-247). -/
def get_customer_key (name : Str) (phone : Option Str) : Str :=
  match normalize_phone phone with
  | some np => np ++ '_' :: normalize_customer_name name
  | none => "NO_PHONE_".data ++ normalize_customer_name name

/-! ### The ten phone patterns (source lines 371-382)

Each matcher reports the number of characters a match starting at the
head of the given suffix consumes, exploring alternatives in Python's
greedy backtracking order: a counted digit group tries its largest count
first, an optional separator tries consuming first. -/

/-- Separator class `[-.\s]`. -/
def isSepC (c : Char) : Bool := c = '-' || c = '.' || isSpaceC c

/-- Literal prefix inside a pattern. -/
def tryLit (l : Str) (s : Str) (k : Str → Option Nat) : Option Nat :=
  if leadsWith l s then (k (s.drop l.length)).map (l.length + ·) else none

/-- A counted digit group `\d{...}`; `counts` lists the candidate counts
in the order backtracking tries them (largest first). -/
def tryCounts (counts : List Nat) (s : Str) (k : Str → Option Nat) : Option Nat :=
  match counts with
  | [] => none
  | n :: ns =>
    if n ≤ (s.takeWhile isDigitC).length then
      match k (s.drop n) with
      | some m => some (n + m)
      | none => tryCounts ns s k
    else tryCounts ns s k

/-- Required separator `[-.\s]`. -/
def trySep (s : Str) (k : Str → Option Nat) : Option Nat :=
  match s with
  | c :: r => if isSepC c then (k r).map (1 + ·) else none
  | [] => none

/-- Optional separator `[-.\s]?` (greedy: consuming first). -/
def tryOptSep (s : Str) (k : Str → Option Nat) : Option Nat :=
  match s with
  | c :: r =>
    if isSepC c then
      match k r with
      | some m => some (1 + m)
      | none => k s
    else k s
  | [] => k s

/-- `\s+` (greedy; every use is followed by a digit, so no backtracking
is needed). -/
def trySpaces1 (s : Str) (k : Str → Option Nat) : Option Nat :=
  let n := (s.takeWhile isSpaceC).length
  if n = 0 then none else (k (s.drop n)).map (n + ·)

/-- `\s*` (greedy; every use is followed by a digit). -/
def trySpaces0 (s : Str) (k : Str → Option Nat) : Option Nat :=
  let n := (s.takeWhile isSpaceC).length
  (k (s.drop n)).map (n + ·)

/-- Pattern end. -/
def patEnd : Str → Option Nat := fun _ => some 0

/-- Lookahead `(?=\s|$)`. -/
def lookaheadWsEnd : Str → Option Nat
  | [] => some 0
  | c :: _ => if isSpaceC c then some 0 else none

/-- `\+62\s+\d{3}-\d{4}-\d{4}`. -/
def phonePat1 (s : Str) : Option Nat :=
  tryLit "+62".data s fun s => trySpaces1 s fun s =>
  tryCounts [3] s fun s => tryLit "-".data s fun s =>
  tryCounts [4] s fun s => tryLit "-".data s fun s =>
  tryCounts [4] s patEnd

/-- `\+62\s+\d{3}-\d{4}-\d{3}`. -/
def phonePat2 (s : Str) : Option Nat :=
  tryLit "+62".data s fun s => trySpaces1 s fun s =>
  tryCounts [3] s fun s => tryLit "-".data s fun s =>
  tryCounts [4] s fun s => tryLit "-".data s fun s =>
  tryCounts [3] s patEnd

/-- `\+62\s+\d{3}-\d{3}-\d{3}`. -/
def phonePat3 (s : Str) : Option Nat :=
  tryLit "+62".data s fun s => trySpaces1 s fun s =>
  tryCounts [3] s fun s => tryLit "-".data s fun s =>
  tryCounts [3] s fun s => tryLit "-".data s fun s =>
  tryCounts [3] s patEnd

/-- `\+62\s+\d{2}-\d{4}-\d{4}`. -/
def phonePat4 (s : Str) : Option Nat :=
  tryLit "+62".data s fun s => trySpaces1 s fun s =>
  tryCounts [2] s fun s => tryLit "-".data s fun s =>
  tryCounts [4] s fun s => tryLit "-".data s fun s =>
  tryCounts [4] s patEnd

/-- `\+62\s+\d{3}\s+\d{4}\s+\d{4}`. -/
def phonePat5 (s : Str) : Option Nat :=
  tryLit "+62".data s fun s => trySpaces1 s fun s =>
  tryCounts [3] s fun s => trySpaces1 s fun s =>
  tryCounts [4] s fun s => trySpaces1 s fun s =>
  tryCounts [4] s patEnd

/-- `\+62\s+\d{2}\s+\d{4}\s+\d{4}`. -/
def phonePat6 (s : Str) : Option Nat :=
  tryLit "+62".data s fun s => trySpaces1 s fun s =>
  tryCounts [2] s fun s => trySpaces1 s fun s =>
  tryCounts [4] s fun s => trySpaces1 s fun s =>
  tryCounts [4] s patEnd

/-- `\+62\s+\d{2,3}[-.\s]\d{3,4}[-.\s]\d{3,4}[-.\s]\d{3,4}`. -/
def phonePat7 (s : Str) : Option Nat :=
  tryLit "+62".data s fun s => trySpaces1 s fun s =>
  tryCounts [3, 2] s fun s => trySep s fun s =>
  tryCounts [4, 3] s fun s => trySep s fun s =>
  tryCounts [4, 3] s fun s => trySep s fun s =>
  tryCounts [4, 3] s patEnd

/-- `\+62\s*\d{2,3}[-.\s]?\d{3,4}[-.\s]?\d{3,4}[-.\s]?\d{3,4}`. -/
def phonePat8 (s : Str) : Option Nat :=
  tryLit "+62".data s fun s => trySpaces0 s fun s =>
  tryCounts [3, 2] s fun s => tryOptSep s fun s =>
  tryCounts [4, 3] s fun s => tryOptSep s fun s =>
  tryCounts [4, 3] s fun s => tryOptSep s fun s =>
  tryCounts [4, 3] s patEnd

/-- `0\d{2,3}[-.\s]?\d{3,4}[-.\s]?\d{3,4}[-.\s]?\d{3,4}`. -/
def phonePat9 (s : Str) : Option Nat :=
  tryLit "0".data s fun s =>
  tryCounts [3, 2] s fun s => tryOptSep s fun s =>
  tryCounts [4, 3] s fun s => tryOptSep s fun s =>
  tryCounts [4, 3] s fun s => tryOptSep s fun s =>
  tryCounts [4, 3] s patEnd

/-- `0\d{10,12}(?=\s|$)`. -/
def phonePat10 (s : Str) : Option Nat :=
  tryLit "0".data s fun s => tryCounts [12, 11, 10] s lookaheadWsEnd

/-- The ordered pattern list of lines 371-382. -/
def phoneMatchers : List (Str → Option Nat) :=
  [phonePat1, phonePat2, phonePat3, phonePat4, phonePat5, phonePat6, phonePat7,
   phonePat8, phonePat9, phonePat10]

/-- All matches of all phone patterns (pattern order, then position
order), as `(start, length)` spans. -/
def allPhoneSpans (t : Str) : List (Nat × Nat) :=
  phoneMatchers.foldl
    (fun acc m => acc ++ (findAll (fun s => (m s).map (fun n => (n, ()))) t).map
      (fun p => (p.1, p.2.1)))
    []

/-- `max(all_matches, key=lambda m: m.end())`: the first span attaining
the maximal end position (lines 384-394). -/
def bestPhoneMatch (t : Str) : Option (Nat × Nat) :=
  (allPhoneSpans t).foldl
    (fun best sp =>
      match best with
      | none => some sp
      | some b => if sp.1 + sp.2 > b.1 + b.2 then some sp else some b)
    none

/-- `f"+62 {digits[0:3]}-{digits[3:7]}-{digits[7:]}"`: the one rendering
expression shared verbatim by the three length branches of lines
409-417. -/
def renderPlus62 (d : Str) : Str :=
  "+62 ".data ++ d.take 3 ++ '-' :: (d.drop 3).take 4 ++ '-' :: d.drop 7

/-- The display re-rendering of a raw phone token (lines 400-417): a
`0`-leading token with at least ten digits loses its leading zero and is
re-rendered `+62`-prefixed when 10, 11 or 9 digits remain; anything else
is kept as written. -/
def format_display_phone (phone : Str) : Str :=
  if leadsWith "0".data phone = true then
    let digits := phone.filter isDigitC
    if 10 ≤ digits.length ∧ leadsWith "0".data digits = true then
      let d := digits.drop 1
      if d.length = 10 then renderPlus62 d
      else if d.length = 11 then renderPlus62 d
      else if d.length = 9 then renderPlus62 d
      else phone
    else phone
  else phone

/-- The name/phone split of lines 384-420: rightmost-ending phone match
wins; everything before it is the name. -/
def split_name_phone (t : Str) : Str × Option Str :=
  match bestPhoneMatch t with
  | some (st, ln) =>
    (trimStr (t.take st), some (format_display_phone (trimStr (sliceStr t st ln))))
  | none => (trimStr t, none)

/-! ### Customer-line classification and assembly (source lines 250-446) -/

/-- `re.match(r'^\d+\.', line)`. -/
def ordinalTest (line : Str) : Bool :=
  let ds := line.takeWhile isDigitC
  ds.length ≠ 0 &&
    (match line.drop ds.length with
     | '.' :: _ => true
     | _ => false)

/-- `re.sub(r'^\d+\.\s*', '', line).strip()`. -/
def stripOrdinal (line : Str) : Str :=
  let ds := line.takeWhile isDigitC
  if ds.length = 0 then trimStr line
  else
    match line.drop ds.length with
    | '.' :: r => trimStr (r.dropWhile isSpaceC)
    | _ => trimStr line

/-- The checkbox classification of lines 318-335.  The checkbox tests
are substring containment (`'- [x]' in line`), and `str.replace` removes
every occurrence, not only a leading one. -/
def classify_customer_line (line : Str) : Bool × Str :=
  if containsSub "- [x]".data line then
    (true, trimStr (replaceStr "- [x]".data [] line))
  else if containsSub "- [ ]".data line || containsSub "- []".data line then
    (false, trimStr (replaceStr "- []".data [] (replaceStr "- [ ]".data [] line)))
  else if ordinalTest line then
    (false, stripOrdinal line)
  else if leadsWith "- ".data line then
    (false, trimStr (replaceStr "- ".data [] line))
  else (false, line)

/-- The fields extracted from one customer line (lines 318-420). -/
structure CustomerFields where
  checked : Bool
  name : Str
  phone : Option Str
  quantity : Nat
  notes : Option Str
deriving DecidableEq

/-- The whole customer-line pipeline: classification, second unicode
normalization, quantity override, note extraction (checked lines only),
"ok" cleanup, name/phone split. -/
def customer_fields (line : Str) : CustomerFields :=
  let cl := classify_customer_line line
  let ct1 := normalize_unicode cl.2
  let eq := extract_quantity_from_customer_name ct1
  let en := if cl.1 then extract_notes_from_customer_name eq.2 else (none, eq.2)
  let np := split_name_phone (cleanupOk en.2)
  ⟨cl.1, np.1, np.2, (eq.1).getD 1, en.1⟩

/-- One purchase entry appended to an item's customer list (lines
434-440). -/
structure Purchase where
  name : Str
  phone : Option Str
  checked : Bool
  quantity : Nat
  notes : Option Str
deriving DecidableEq

/-- An item of the output model (lines 306-310). -/
structure Item where
  name : Str
  price : Nat
  customers : List Purchase
deriving DecidableEq

/-- The mutable state of the line loop of `parse_input_file`: emitted
items, the customer registry (an insertion-ordered association list,
like a Python dict), the open item, and the section-skip flag. -/
structure ParseState where
  items : List Item
  customers : List (Str × Str × Option Str)
  currentItem : Option Item
  skipSection : Bool
deriving DecidableEq

/-- The section-skip marker phrase (line 285). -/
def skipMarker : Str := "Product REQUEST cek harga".data

/-- `customer_key in customers`. -/
def registryHas (cs : List (Str × Str × Option Str)) (key : Str) : Bool :=
  cs.any (fun e => e.1 = key)

/-- The registry upsert of lines 427-431: the first writer for a key
establishes the record, later writers are no-ops. -/
def upsertRegistry (cs : List (Str × Str × Option Str)) (key : Str) (name : Str)
    (phone : Option Str) : List (Str × Str × Option Str) :=
  if registryHas cs key then cs else cs ++ [(key, name, phone)]

/-- Processing of a customer line while an item is open (lines 311-440):
only checked lines change the state. -/
def process_customer_line (st : ParseState) (cur : Item) (line : Str) : ParseState :=
  let f := customer_fields line
  if f.checked then
    { st with
      customers := upsertRegistry st.customers (get_customer_key f.name f.phone) f.name f.phone,
      currentItem := some
        { cur with customers := cur.customers ++ [⟨f.name, f.phone, f.checked, f.quantity, f.notes⟩] } }
  else st

/-- One iteration of the line loop of `parse_input_file` (lines
274-440). -/
def process_line (st : ParseState) (raw : Str) : ParseState :=
  let line0 := trimStr raw
  if line0.length = 0 then st
  else
    let line := normalize_unicode line0
    if containsSub skipMarker line then { st with skipSection := true }
    else if st.skipSection then st
    else
      match extract_price line with
      | some price =>
        { st with
          items := (match st.currentItem with
                    | some it => st.items ++ [it]
                    | none => st.items),
          currentItem := some ⟨sanitize_item_name line, price, []⟩ }
      | none =>
        match st.currentItem with
        | some cur => process_customer_line st cur line
        | none => st

/-- The initial state of the loop (lines 268-271). -/
def initState : ParseState := ⟨[], [], none, false⟩

/-- End of input: a still-open item is emitted (lines 442-444). -/
def finishState (st : ParseState) : List Item × List (Str × Str × Option Str) :=
  ((match st.currentItem with
    | some it => st.items ++ [it]
    | none => st.items),
   st.customers)

/-- `parse_input_file` (lines 250-446), over an already split list of
lines. -/
def parse_input_file (lines : List Str) : List Item × List (Str × Str × Option Str) :=
  finishState (lines.foldl process_line initState)

/-! ### Derived quantities used by the theorems -/

/-- The four-line document of the end-to-end scenario. -/
def c1doc : List Str :=
  ["Box of crackers 150rb".data,
   "- [x] Alice +62 811-2222-3333".data,
   "- [ ] Bob 0812-1111-2222".data,
   "- [x] Carol (+3 box) 0813-4444-5555 (urgent)".data]

/-- A text whose leftmost jt numeral (309 digits, 2e308) overflows the
float conversion while its rb token still converts. -/
def hugeJtRb : Str := '2' :: List.replicate 308 '0' ++ "jt 5rb".data

/-- The same checked customer line under two different items. -/
def budiDoc : List Str :=
  ["Snack A 10rb".data,
   "- [x] Budi +62 812-3456-7890".data,
   "Snack B 20rb".data,
   "- [x] Budi +62 812-3456-7890".data]

/-- Number of items a state accounts for: emitted items plus the open
one. -/
def itemsMeasure (st : ParseState) : Nat :=
  st.items.length +
    (match st.currentItem with
     | some _ => 1
     | none => 0)

/-- The number of price-bearing lines a document contributes, tracking
the skip flag exactly as the line loop does; defined independently of the
item-building machinery. -/
def effectiveCount : List Str → Bool → Nat
  | [], _ => 0
  | l :: ls, skip =>
    if (trimStr l).length = 0 then effectiveCount ls skip
    else if containsSub skipMarker (normalize_unicode (trimStr l)) then effectiveCount ls true
    else if skip then effectiveCount ls skip
    else
      match extract_price (normalize_unicode (trimStr l)) with
      | some _ => 1 + effectiveCount ls skip
      | none => effectiveCount ls skip

/-! ## Helper lemmas -/

/-- Setting the skip flag touches no other field. -/
theorem setSkip_fields (st : ParseState) :
    ({ st with skipSection := true } : ParseState).items = st.items ∧
    ({ st with skipSection := true } : ParseState).customers = st.customers ∧
    ({ st with skipSection := true } : ParseState).currentItem = st.currentItem ∧
    ({ st with skipSection := true } : ParseState).skipSection = true := by
  cases st
  exact ⟨rfl, rfl, rfl, rfl⟩

/-- While the skip flag is set, a line changes nothing. -/
theorem process_line_skip (st : ParseState) (l : Str) (h : st.skipSection = true) :
    process_line st l = st := by
  unfold process_line
  by_cases h0 : (trimStr l).length = 0
  · simp [h0]
  · by_cases h1 : containsSub skipMarker (normalize_unicode (trimStr l)) = true
    · simp only [h0, if_false, h1, if_true]
      cases st
      simp_all
    · simp [h0, h1, h]

/-- While the skip flag is set, a whole tail of lines changes nothing. -/
theorem foldl_skip (ls : List Str) (st : ParseState) (h : st.skipSection = true) :
    ls.foldl process_line st = st := by
  induction ls with
  | nil => rfl
  | cons a as ih => rw [List.foldl_cons, process_line_skip st a h]; exact ih

/-- A line containing the marker phrase (after strip and normalization)
sets the skip flag and changes nothing else. -/
theorem process_line_marker (st : ParseState) (marker : Str)
    (h : containsSub skipMarker (normalize_unicode (trimStr marker)) = true) :
    process_line st marker = { st with skipSection := true } := by
  have h0 : ¬(trimStr marker).length = 0 := by
    intro hl
    rw [List.length_eq_zero.mp hl] at h
    exact absurd h (by decide)
  unfold process_line
  simp [h0, h]

/-- The emitted item list of a finished state: the accumulated items
plus the still-open one. -/
theorem finish_fst (st : ParseState) :
    (finishState st).1 = st.items ++
      (match st.currentItem with
       | some it => [it]
       | none => []) := by
  cases st with
  | mk its cs cur sk => cases cur <;> simp [finishState]

/-- The emitted item count of a finished state is its measure. -/
theorem finish_length (st : ParseState) :
    ((finishState st).1).length = itemsMeasure st := by
  cases st with
  | mk its cs cur sk => cases cur <;> simp [finishState, itemsMeasure]

/-- `takeWhile` takes exactly a leading all-`p` block that ends at a
non-`p` character. -/
theorem takeWhile_prefix_block (p : Char → Bool) (ds rest : Str)
    (h : ∀ c ∈ ds, p c = true) (c : Char) (hc : p c = false) :
    (ds ++ c :: rest).takeWhile p = ds := by
  induction ds with
  | nil => simp [List.takeWhile_cons, hc]
  | cons d ds ih =>
    have hd : p d = true := h d (by simp)
    simp only [List.cons_append, List.takeWhile_cons, hd, if_true]
    rw [ih (fun x hx => h x (by simp [hx]))]

/-- Characters produced by `normChar` are fixed by `normChar`. -/
theorem normChar_stable (c d : Char) (h : normChar c = some d) : normChar d = some d := by
  unfold normChar at h
  by_cases h1 : spaceSources.contains c = true
  · rw [if_pos h1] at h
    injection h with h
    subst h
    decide
  · rw [if_neg h1] at h
    by_cases h2 : removedSources.contains c = true
    · rw [if_pos h2] at h
      exact Option.noConfusion h
    · rw [if_neg h2] at h
      by_cases h3 : dashSources.contains c = true
      · rw [if_pos h3] at h
        injection h with h
        subst h
        decide
      · rw [if_neg h3] at h
        injection h with h
        subst h
        unfold normChar
        rw [if_neg h1, if_neg h2, if_neg h3]

/-! ## Claim theorems -/

/-- C2: on the failing input `"Towel (red) 109rb"` the sanitization
pipeline of the code produces `"Towel"`, not the `"Towel (red)"` its own
docstring and the spec promise; the second example `"Towel 125rb (note)"`
behaves as documented. -/
theorem C2_code_eval :
    sanitize_item_name "Towel (red) 109rb".data = "Towel".data ∧
    sanitize_item_name "Towel 125rb (note)".data = "Towel".data := by
  decide

/-- C4: the three price-extraction examples of the spec evaluate
exactly as promised. -/
theorem C4_examples :
    extract_price "195rb".data = some 195000 ∧
    extract_price "3,4jt".data = some 3400000 ∧
    extract_price "1.989.000".data = some 1989000 := by
  decide

/-- C1 (counterexample): on the spec's four-line document the customer
registry has two entries but none of them is named `"Carol"` — the
dashed local phone number stays glued to Carol's name because it matches
none of the ten phone patterns. -/
theorem C1_counterexample :
    (parse_input_file c1doc).2.length = 2 ∧
    ((parse_input_file c1doc).2.all (fun e => decide (e.2.1 ≠ "Carol".data))) = true := by
  decide

/-- C1 (amended): the four-line document yields one item
`"Box of crackers"` at price 150000 with the two checked purchases
(Alice, qty 1, no note; qty 3 with note `"(urgent)"` under the name
`"Carol 0813-4444-5555"` and no phone), and a registry with exactly the
Alice record and the phone-less `"Carol 0813-4444-5555"` record. -/
theorem C1_amended :
    parse_input_file c1doc =
      ([⟨"Box of crackers".data, 150000,
          [⟨"Alice".data, some "+62 811-2222-3333".data, true, 1, none⟩,
           ⟨"Carol 0813-4444-5555".data, none, true, 3, some "(urgent)".data⟩]⟩],
       [("081122223333_alice".data, "Alice".data, some "+62 811-2222-3333".data),
        ("NO_PHONE_carol 0813-4444-5555".data, "Carol 0813-4444-5555".data, none)]) := by
  decide

/-- C3: pattern-family precedence of `extract_price`, with the
conversion-success condition: the first family that yields a successful
conversion wins.  A jt-family success (a leftmost jt match whose float
conversion does not overflow) is always returned, regardless of rb or
grouped-number matches; when the jt family yields nothing — no match, or
a matched numeral whose conversion overflows — a successful rb family is
returned regardless of grouped-number matches; when both suffix families
yield nothing, the grouped-long-number family alone decides the
result. -/
theorem C3_precedence :
    (∀ (t : Str) (v : Nat),
        priceFamily 'j' 't' 1000000 t = some v → extract_price t = some v) ∧
    (∀ (t : Str) (v : Nat),
        priceFamily 'j' 't' 1000000 t = none →
        priceFamily 'r' 'b' 1000 t = some v →
        extract_price t = some v) ∧
    (∀ t : Str,
        priceFamily 'j' 't' 1000000 t = none →
        priceFamily 'r' 'b' 1000 t = none →
        extract_price t = priceLongFamily t) := by
  refine ⟨?_, ?_, ?_⟩
  · intro t v h
    unfold extract_price
    rw [h]
  · intro t v hj hr
    unfold extract_price
    rw [hj, hr]
  · intro t hj hr
    unfold extract_price
    rw [hj, hr]

/-- C3 (witness): a text carrying all three notations takes the jt
value; on `hugeJtRb` the jt pattern does match, but its 309-digit
numeral overflows the conversion (`priceFamily` yields nothing), so the
rb value 5000 is returned — the fall-through of `except: continue`. -/
theorem C3_precedence_witness :
    extract_price "5jt 6rb 1.000".data = some 5000000 ∧
    (priceFamily 'j' 't' 1000000 hugeJtRb = none ∧
      extract_price hugeJtRb = some 5000) :=
  ⟨C3_precedence.1 _ 5000000 (by decide),
   by decide, C3_precedence.2.1 _ 5000 (by decide) (by decide)⟩

/-- C5 (counterexample): `"0123-456-789-012"` is matched by the phone
patterns (so it becomes the purchase's phone token), starts with `0`,
yet it is stored exactly as written — not re-rendered into a
`"+62 "`-prefixed dash-grouped form — because 12 digits remain after
dropping the leading zero. -/
theorem C5_counterexample :
    split_name_phone "Dewi 0123-456-789-012".data =
      ("Dewi".data, some "0123-456-789-012".data) ∧
    leadsWith "0".data "0123-456-789-012".data = true ∧
    leadsWith "+62 ".data "0123-456-789-012".data = false := by
  decide

/-- C5 (amended): a `0`-leading token is re-rendered `"+62 "`-prefixed
with 3-4-3 digit grouping when 10 digits remain after dropping the zero,
and 3-4-4 grouping when 11 remain; a token with 12 or more remaining
digits is stored exactly as written, as is any token not starting with
`0` (in particular the already-`+62` forms); `"081234567890"` becomes
`"+62 812-3456-7890"` — 11 digits after the country code. -/
theorem C5_amended :
    (∀ (t r : Str), t = '0' :: r → (t.filter isDigitC).length = 11 →
        format_display_phone t =
          "+62 ".data ++ ((t.filter isDigitC).drop 1).take 3 ++
            '-' :: (((t.filter isDigitC).drop 1).drop 3).take 4 ++
            '-' :: (((t.filter isDigitC).drop 1).drop 7).take 3) ∧
    (∀ (t r : Str), t = '0' :: r → (t.filter isDigitC).length = 12 →
        format_display_phone t =
          "+62 ".data ++ ((t.filter isDigitC).drop 1).take 3 ++
            '-' :: (((t.filter isDigitC).drop 1).drop 3).take 4 ++
            '-' :: (((t.filter isDigitC).drop 1).drop 7).take 4) ∧
    (∀ (t r : Str), t = '0' :: r → 13 ≤ (t.filter isDigitC).length →
        format_display_phone t = t) ∧
    (∀ t : Str, leadsWith "0".data t = false → format_display_phone t = t) ∧
    format_display_phone "081234567890".data = "+62 812-3456-7890".data := by
  have hdig : ∀ r : Str, ('0' :: r).filter isDigitC = '0' :: r.filter isDigitC :=
    fun r => List.filter_cons_of_pos (by decide)
  refine ⟨?_, ?_, ?_, ?_, by decide⟩
  · intro t r ht hlen
    subst ht
    rw [hdig] at hlen ⊢
    have hf : (r.filter isDigitC).length = 10 := by simpa using hlen
    have lead0 : leadsWith "0".data ('0' :: r) = true := rfl
    have hcond : 10 ≤ ('0' :: r.filter isDigitC).length ∧
        leadsWith "0".data ('0' :: r.filter isDigitC) = true := ⟨by simp [hf], rfl⟩
    have hdrop : ('0' :: r.filter isDigitC).drop 1 = r.filter isDigitC := rfl
    have htake : ((r.filter isDigitC).drop 7).take 3 = (r.filter isDigitC).drop 7 :=
      List.take_of_length_le (by simp [hf])
    simp only [format_display_phone, hdig]
    rw [if_pos lead0, if_pos hcond, hdrop, if_pos hf, htake]
    rfl
  · intro t r ht hlen
    subst ht
    rw [hdig] at hlen ⊢
    have hf : (r.filter isDigitC).length = 11 := by simpa using hlen
    have lead0 : leadsWith "0".data ('0' :: r) = true := rfl
    have hcond : 10 ≤ ('0' :: r.filter isDigitC).length ∧
        leadsWith "0".data ('0' :: r.filter isDigitC) = true := ⟨by simp [hf], rfl⟩
    have hdrop : ('0' :: r.filter isDigitC).drop 1 = r.filter isDigitC := rfl
    have htake : ((r.filter isDigitC).drop 7).take 4 = (r.filter isDigitC).drop 7 :=
      List.take_of_length_le (by simp [hf])
    simp only [format_display_phone, hdig]
    rw [if_pos lead0, if_pos hcond, hdrop, if_neg (by omega : ¬(r.filter isDigitC).length = 10),
      if_pos hf, htake]
    rfl
  · intro t r ht hlen
    subst ht
    rw [hdig] at hlen
    have hf : 12 ≤ (r.filter isDigitC).length := by
      simp only [List.length_cons] at hlen
      omega
    have lead0 : leadsWith "0".data ('0' :: r) = true := rfl
    have hcond : 10 ≤ ('0' :: r.filter isDigitC).length ∧
        leadsWith "0".data ('0' :: r.filter isDigitC) = true := ⟨by simp; omega, rfl⟩
    have hdrop : ('0' :: r.filter isDigitC).drop 1 = r.filter isDigitC := rfl
    simp only [format_display_phone, hdig]
    rw [if_pos lead0, if_pos hcond, hdrop, if_neg (by omega : ¬(r.filter isDigitC).length = 10),
      if_neg (by omega : ¬(r.filter isDigitC).length = 11),
      if_neg (by omega : ¬(r.filter isDigitC).length = 9)]
  · intro t h
    simp [format_display_phone, h]

/-- C5 (witness): the amended rendering rule applied to the concrete
11-digit token `"08123456789"` (10 digits remain, 3-4-3 grouping). -/
theorem C5_amended_witness :
    format_display_phone ('0' :: "8123456789".data) =
      "+62 ".data ++ ((('0' :: "8123456789".data).filter isDigitC).drop 1).take 3 ++
        '-' :: (((('0' :: "8123456789".data).filter isDigitC).drop 1).drop 3).take 4 ++
        '-' :: (((('0' :: "8123456789".data).filter isDigitC).drop 1).drop 7).take 3 :=
  C5_amended.1 _ "8123456789".data rfl (by decide)

/-- C6: identity collapsing with first-writer-wins.  The concrete Budi
document produces two items with one purchase each but a single registry
record; in general a checked customer line whose identity key is already
registered leaves the registry untouched, a fresh key appends exactly
one record, and either way the line appends exactly one purchase to the
open item. -/
theorem C6_identity :
    (parse_input_file budiDoc =
      ([⟨"Snack A".data, 10000,
          [⟨"Budi".data, some "+62 812-3456-7890".data, true, 1, none⟩]⟩,
        ⟨"Snack B".data, 20000,
          [⟨"Budi".data, some "+62 812-3456-7890".data, true, 1, none⟩]⟩],
       [("081234567890_budi".data, "Budi".data, some "+62 812-3456-7890".data)])) ∧
    (∀ (st : ParseState) (cur : Item) (line : Str),
        (customer_fields line).checked = true →
        (registryHas st.customers
            (get_customer_key (customer_fields line).name (customer_fields line).phone) = true →
          (process_customer_line st cur line).customers = st.customers) ∧
        (registryHas st.customers
            (get_customer_key (customer_fields line).name (customer_fields line).phone) = false →
          (process_customer_line st cur line).customers =
            st.customers ++
              [(get_customer_key (customer_fields line).name (customer_fields line).phone,
                (customer_fields line).name, (customer_fields line).phone)]) ∧
        (process_customer_line st cur line).currentItem =
          some { cur with customers := cur.customers ++
            [⟨(customer_fields line).name, (customer_fields line).phone, true,
              (customer_fields line).quantity, (customer_fields line).notes⟩] }) := by
  constructor
  · decide
  · intro st cur line h
    refine ⟨fun hreg => ?_, fun hreg => ?_, ?_⟩
    · simp [process_customer_line, h, upsertRegistry, hreg]
    · simp [process_customer_line, h, upsertRegistry, hreg]
    · simp [process_customer_line, h]

/-- C6 (witness): processing the checked Budi line against an empty
registry appends exactly the Budi record. -/
theorem C6_identity_witness :
    (process_customer_line ⟨[], [], some ⟨"X".data, 5000, []⟩, false⟩ ⟨"X".data, 5000, []⟩
        "- [x] Budi +62 812-3456-7890".data).customers =
      [] ++ [(get_customer_key (customer_fields "- [x] Budi +62 812-3456-7890".data).name
                (customer_fields "- [x] Budi +62 812-3456-7890".data).phone,
              (customer_fields "- [x] Budi +62 812-3456-7890".data).name,
              (customer_fields "- [x] Budi +62 812-3456-7890".data).phone)] :=
  (C6_identity.2 _ _ _ (by decide)).2.1 (by decide)

/-- C7 (counterexample): the non-price line `"Andi - [x]"` does not
begin with the `- [x]` marker, yet it is classified as checked — the
code tests substring containment, not a leading position. -/
theorem C7_counterexample :
    extract_price "Andi - [x]".data = none ∧
    (classify_customer_line "Andi - [x]".data).1 = true ∧
    leadsWith "- [x]".data "Andi - [x]".data = false := by
  decide

/-- C7 (amended): a line is classified as checked exactly when it
contains `- [x]` anywhere as a substring (not only in leading
position).  A line containing `- [x]` has every occurrence of that
marker removed; otherwise a line containing `- [ ]` or `- []` has every
occurrence of both removed; otherwise a line with an ordinal prefix has
exactly that leading `digits.` (and following spaces) stripped from the
front; otherwise a line beginning with `- ` — the branch fires only on a
leading `- `, though it then removes every occurrence — is stripped of
all `- ` occurrences; a line with none of the markers (including one
that merely contains `- ` without beginning with it) is returned whole
and unchecked. -/
theorem C7_amended :
    (∀ line : Str,
        ((classify_customer_line line).1 = true ↔ containsSub "- [x]".data line = true)) ∧
    (∀ line : Str,
        containsSub "- [x]".data line = false →
        containsSub "- [ ]".data line = false →
        containsSub "- []".data line = false →
        ordinalTest line = false →
        leadsWith "- ".data line = false →
        classify_customer_line line = (false, line)) ∧
    (∀ line : Str,
        containsSub "- [x]".data line = true →
        classify_customer_line line = (true, trimStr (replaceStr "- [x]".data [] line))) ∧
    (∀ line : Str,
        containsSub "- [x]".data line = false →
        (containsSub "- [ ]".data line || containsSub "- []".data line) = true →
        classify_customer_line line =
          (false, trimStr (replaceStr "- []".data [] (replaceStr "- [ ]".data [] line)))) ∧
    (∀ line : Str,
        containsSub "- [x]".data line = false →
        containsSub "- [ ]".data line = false →
        containsSub "- []".data line = false →
        ordinalTest line = true →
        classify_customer_line line = (false, stripOrdinal line)) ∧
    (∀ ds rest : Str, ds ≠ [] → (∀ c ∈ ds, isDigitC c = true) →
        stripOrdinal (ds ++ '.' :: rest) = trimStr (rest.dropWhile isSpaceC)) ∧
    (∀ line : Str,
        containsSub "- [x]".data line = false →
        containsSub "- [ ]".data line = false →
        containsSub "- []".data line = false →
        ordinalTest line = false →
        leadsWith "- ".data line = true →
        classify_customer_line line = (false, trimStr (replaceStr "- ".data [] line))) ∧
    classify_customer_line "- [x] a - [x] b".data = (true, "a  b".data) ∧
    classify_customer_line "- [ ] a - [ ] b".data = (false, "a  b".data) ∧
    classify_customer_line "- a - b".data = (false, "a b".data) ∧
    classify_customer_line "x - y".data = (false, "x - y".data) := by
  refine ⟨?_, ?_, ?_, ?_, ?_, ?_, ?_, by decide, by decide, by decide, by decide⟩
  · intro line
    cases hc : containsSub "- [x]".data line with
    | true => simp [classify_customer_line, hc]
    | false =>
      have h1 : (classify_customer_line line).1 = false := by
        unfold classify_customer_line
        rw [if_neg (by simp [hc])]
        split
        · rfl
        · split
          · rfl
          · split <;> rfl
      simp [h1, hc]
  · intro line h1 h2 h3 h4 h5
    simp [classify_customer_line, h1, h2, h3, h4, h5]
  · intro line h1
    simp [classify_customer_line, h1]
  · intro line h1 h2
    unfold classify_customer_line
    rw [if_neg (by simp [h1]), if_pos h2]
  · intro line h1 h2 h3 h4
    simp [classify_customer_line, h1, h2, h3, h4]
  · intro ds rest hne h
    unfold stripOrdinal
    rw [takeWhile_prefix_block isDigitC ds rest h '.' (by decide)]
    rw [if_neg (by simpa using hne), List.drop_left]
    rfl
  · intro line h1 h2 h3 h4 h5
    simp [classify_customer_line, h1, h2, h3, h4, h5]

/-- C7 (witness): the amended no-marker clause applied to the plain line
`"Hello"`. -/
theorem C7_amended_witness :
    classify_customer_line "Hello".data = (false, "Hello".data) :=
  C7_amended.2.1 _ (by decide) (by decide) (by decide) (by decide) (by decide)

/-- C8: section skipping is permanent and total.  Once the skip flag is
set no line changes the state; for any document whose line `marker`
contains the marker phrase, every line after `marker` is irrelevant to
the final result, and the items of that result are exactly the items
accumulated before the marker plus the item still open when the marker
was read (which is therefore emitted). -/
theorem C8_skip_permanent :
    (∀ (st : ParseState) (l : Str), st.skipSection = true → process_line st l = st) ∧
    (∀ (pre : List Str) (marker : Str) (rest : List Str),
        containsSub skipMarker (normalize_unicode (trimStr marker)) = true →
        parse_input_file (pre ++ marker :: rest) = parse_input_file (pre ++ [marker]) ∧
        (parse_input_file (pre ++ marker :: rest)).1 =
          (pre.foldl process_line initState).items ++
            (match (pre.foldl process_line initState).currentItem with
             | some it => [it]
             | none => [])) := by
  refine ⟨process_line_skip, ?_⟩
  intro pre marker rest h
  have hset : ∀ st : ParseState,
      (({ st with skipSection := true } : ParseState)).skipSection = true :=
    fun st => (setSkip_fields st).2.2.2
  have hfold : ∀ st : ParseState,
      (pre ++ marker :: rest).foldl process_line st =
        { pre.foldl process_line st with skipSection := true } := by
    intro st
    rw [List.foldl_append, List.foldl_cons, process_line_marker _ _ h,
      foldl_skip _ _ (hset _)]
  have hfold1 : ∀ st : ParseState,
      (pre ++ [marker]).foldl process_line st =
        { pre.foldl process_line st with skipSection := true } := by
    intro st
    rw [List.foldl_append, List.foldl_cons, List.foldl_nil, process_line_marker _ _ h]
  constructor
  · unfold parse_input_file
    rw [hfold, hfold1]
  · unfold parse_input_file
    rw [hfold, finish_fst, (setSkip_fields _).1, (setSkip_fields _).2.2.1]

/-- C8 (witness): a concrete document with an open item at the marker
and junk lines after it. -/
theorem C8_skip_permanent_witness :
    parse_input_file (["Snack A 10rb".data] ++ "Product REQUEST cek harga".data ::
        ["Snack B 20rb".data, "- [x] Budi 08123456789".data]) =
      parse_input_file (["Snack A 10rb".data] ++ ["Product REQUEST cek harga".data]) :=
  ((C8_skip_permanent.2 _ _ _ (by decide)).1)

/-- C9: unicode normalization is idempotent — every character it emits
is fixed by its per-character map. -/
theorem C9_idempotent (s : Str) :
    normalize_unicode (normalize_unicode s) = normalize_unicode s := by
  unfold normalize_unicode
  induction s with
  | nil => rfl
  | cons c cs ih =>
    cases h : normChar c with
    | none => rw [List.filterMap_cons_none h]; exact ih
    | some d =>
      rw [List.filterMap_cons_some h, List.filterMap_cons_some (normChar_stable c d h), ih]

/-- A customer line never changes the item count, the open-item
presence, or the skip flag. -/
theorem measure_pcl (its : List Item) (cs : List (Str × Str × Option Str)) (c : Item)
    (sk : Bool) (cur : Item) (line : Str) :
    itemsMeasure (process_customer_line ⟨its, cs, some c, sk⟩ cur line) =
      itemsMeasure ⟨its, cs, some c, sk⟩ ∧
    (process_customer_line ⟨its, cs, some c, sk⟩ cur line).skipSection = sk := by
  simp only [process_customer_line]
  split
  · exact ⟨rfl, rfl⟩
  · exact ⟨rfl, rfl⟩

/-- Each line advances the item measure by exactly its effective-count
contribution, and both sides track the skip flag identically. -/
theorem foldl_measure (ls : List Str) : ∀ st : ParseState,
    itemsMeasure (ls.foldl process_line st) =
      itemsMeasure st + effectiveCount ls st.skipSection := by
  induction ls with
  | nil => intro st; simp [effectiveCount]
  | cons l ls ih =>
    intro st
    obtain ⟨its, cs, cur, sk⟩ := st
    rw [List.foldl_cons, ih]
    by_cases h0 : (trimStr l).length = 0
    · rw [show process_line ⟨its, cs, cur, sk⟩ l = ⟨its, cs, cur, sk⟩ by
        simp [process_line, h0]]
      simp [effectiveCount, h0]
    · by_cases h1 : containsSub skipMarker (normalize_unicode (trimStr l)) = true
      · rw [process_line_marker _ _ h1]
        simp [itemsMeasure, effectiveCount, h0, h1]
      · cases sk with
        | true =>
          rw [show process_line ⟨its, cs, cur, true⟩ l = ⟨its, cs, cur, true⟩ by
            simp [process_line, h0, h1]]
          simp [effectiveCount, h0, h1]
        | false =>
          cases hp : extract_price (normalize_unicode (trimStr l)) with
          | some price =>
            have hpl : process_line ⟨its, cs, cur, false⟩ l =
                ⟨(match cur with
                   | some it => its ++ [it]
                   | none => its), cs,
                 some ⟨sanitize_item_name (normalize_unicode (trimStr l)), price, []⟩,
                 false⟩ := by
              simp [process_line, h0, h1, hp]
            rw [hpl]
            cases cur <;> simp [itemsMeasure, effectiveCount, h0, h1, hp] <;> omega
          | none =>
            cases cur with
            | none =>
              rw [show process_line ⟨its, cs, none, false⟩ l = ⟨its, cs, none, false⟩ by
                simp [process_line, h0, h1, hp]]
              simp [effectiveCount, h0, h1, hp]
            | some c =>
              have hpl : process_line ⟨its, cs, some c, false⟩ l =
                  process_customer_line ⟨its, cs, some c, false⟩ c
                    (normalize_unicode (trimStr l)) := by
                simp [process_line, h0, h1, hp]
              rw [hpl, (measure_pcl its cs c false c _).1, (measure_pcl its cs c false c _).2]
              simp [effectiveCount, h0, h1, hp]

/-- C10: items are never merged — the number of emitted items equals
the number of price-bearing non-skipped lines (counted independently of
the item-building machinery), and two same-priced lines with the same
sanitized name stay two distinct items in document order. -/
theorem C10_no_dedup :
    (∀ lines : List Str, ((parse_input_file lines).1).length = effectiveCount lines false) ∧
    (parse_input_file ["Apple 10rb".data, "Apple 10rb".data]).1 =
      [⟨"Apple".data, 10000, []⟩, ⟨"Apple".data, 10000, []⟩] := by
  constructor
  · intro lines
    unfold parse_input_file
    rw [finish_length, foldl_measure]
    simp [initState, itemsMeasure]
  · decide

end MomotaroTrip
